import Mathlib

/-!
Shallow embedding of the real-estate wholesaling backend
(`real_estate_backend/app`): the deal financial calculation, the deal
CRUD operations with their side effects, and the dashboard revenue
aggregates.  Money fields (Python `float` columns) are modelled as
exact rationals; timestamps are modelled as integer day counts.
Python runtime errors (`TypeError` from arithmetic on `None`,
duplicate keyword arguments in a constructor call) are modelled with
an explicit error result, and an operation that raises leaves the
store unchanged (the enclosing transaction aborts).
-/

namespace RealEstate

/-- Deal status enum (`models.DealStatus`). -/
inductive DealStatus
  | pending
  | approved
  | rejected
  | closed
  deriving DecidableEq, Repr

/-- Property status enum (`models.PropertyStatus`). -/
inductive PropertyStatus
  | available
  | under_contract
  | sold
  | off_market
  deriving DecidableEq, Repr

/-- The fields of `models.Property` that the deal logic reads or writes. -/
structure Property where
  id : Nat
  arv : Option ℚ
  purchase_price : Option ℚ
  status : PropertyStatus
  sold_date : Option Int
  deriving DecidableEq, Repr

/-- A `models.Lead` row; only its identity matters to the deal logic. -/
structure Lead where
  id : Nat
  deriving DecidableEq, Repr

/-- The fields of `models.Deal` that the claims exercise. -/
structure Deal where
  id : Nat
  property_id : Nat
  lead_id : Nat
  agent_id : Nat
  status : DealStatus
  offer_price : Option ℚ
  wholesale_fee : Option ℚ
  net_profit : Option ℚ
  created_at : Int
  deriving DecidableEq, Repr

/-- The relational store: the three tables the deal endpoints touch. -/
structure DB where
  properties : List Property
  leads : List Lead
  deals : List Deal
  deriving DecidableEq, Repr

/-- Errors an endpoint can surface: an `HTTPException` with status 404,
or an uncaught Python `TypeError`. -/
inductive ApiError
  | notFound (detail : String)
  | typeError
  deriving DecidableEq, Repr

/-- Python truthiness of an optional float: `None` and `0.0` are falsy. -/
def truthy : Option ℚ → Bool
  | none => false
  | some x => x != 0

/-- Python subtraction on optional floats: raises `TypeError` when an
operand is `None`. -/
def pySub : Option ℚ → Option ℚ → Except Unit ℚ
  | some a, some b => Except.ok (a - b)
  | _, _ => Except.error ()

/-- The deal financial calculation (`deals.py` lines 29-34, repeated at
lines 93-96): `if property.arv and deal.offer_price:` then
`wholesale_fee = property.arv * 0.10` and
`net_profit = wholesale_fee - (deal.offer_price - property.purchase_price)`,
else both are `None`.  The inner subtraction raises `TypeError` when
`purchase_price` is `None`. -/
def computeDealFinancials (arv purchasePrice offerPrice : Option ℚ) :
    Except Unit (Option ℚ × Option ℚ) :=
  if truthy arv && truthy offerPrice then
    let fee := arv.getD 0 * (10 / 100)
    match pySub offerPrice purchasePrice with
    | Except.ok spread => Except.ok (some fee, some (fee - spread))
    | Except.error e => Except.error e
  else
    Except.ok (none, none)

/-- `db.query(Property).filter(Property.id == pid).first()`. -/
def findProperty (db : DB) (pid : Nat) : Option Property :=
  db.properties.find? fun p => p.id == pid

/-- `db.query(Lead).filter(Lead.id == lid).first()`. -/
def findLead (db : DB) (lid : Nat) : Option Lead :=
  db.leads.find? fun l => l.id == lid

/-- `db.query(Deal).filter(Deal.id == did).first()`. -/
def findDeal (db : DB) (did : Nat) : Option Deal :=
  db.deals.find? fun d => d.id == did

/-- Commit a mutated deal row back to its table (ORM identity-map write). -/
def DB.putDeal (db : DB) (d : Deal) : DB :=
  { db with deals := db.deals.map fun x => if x.id == d.id then d else x }

/-- Commit a mutated property row back to its table. -/
def DB.putProperty (db : DB) (p : Property) : DB :=
  { db with properties := db.properties.map fun x => if x.id == p.id then p else x }

/-- `schemas.DealCreate`: `property_id`, `lead_id`, `offer_price` and
`agent_id` are required; `wholesale_fee` and `net_profit` are optional
fields inherited from `DealBase`.  All of them are keys of `deal.dict()`. -/
structure DealCreate where
  property_id : Nat
  lead_id : Nat
  agent_id : Nat
  offer_price : ℚ
  wholesale_fee : Option ℚ := none
  net_profit : Option ℚ := none
  deriving DecidableEq, Repr

/-- `create_deal` (`deals.py` lines 13-45).  After the two referential
checks and the financial calculation, the constructor call
`Deal(**deal.dict(), agent_id=..., wholesale_fee=..., net_profit=...)`
passes `agent_id`, `wholesale_fee` and `net_profit` twice, because they
are already keys of `deal.dict()`; in Python that raises
`TypeError: got multiple values for keyword argument` before
`db.add`/`db.commit` run, so the store is returned unchanged. -/
def create_deal (db : DB) (deal : DealCreate) : DB × Except ApiError Deal :=
  match findProperty db deal.property_id with
  | none => (db, Except.error (ApiError.notFound "Property not found"))
  | some property =>
    match findLead db deal.lead_id with
    | none => (db, Except.error (ApiError.notFound "Lead not found"))
    | some _ =>
      match computeDealFinancials property.arv property.purchase_price
          (some deal.offer_price) with
      | Except.error _ => (db, Except.error ApiError.typeError)
      | Except.ok _ => (db, Except.error ApiError.typeError)

/-- `schemas.DealUpdate` restricted to the fields the claims exercise;
`none` means the field is absent from the patch (`exclude_unset=True`).
Explicitly patching a field to `null` is not modelled. -/
structure DealUpdate where
  offer_price : Option ℚ := none
  status : Option DealStatus := none
  wholesale_fee : Option ℚ := none
  net_profit : Option ℚ := none
  deriving DecidableEq, Repr

/-- The generic `setattr` loop of `update_deal` (lines 89-91): only
fields present in the patch are overwritten. -/
def applyPatch (d : Deal) (u : DealUpdate) : Deal :=
  { d with
    offer_price := match u.offer_price with
      | some v => some v
      | none => d.offer_price
    status := u.status.getD d.status
    wholesale_fee := match u.wholesale_fee with
      | some v => some v
      | none => d.wholesale_fee
    net_profit := match u.net_profit with
      | some v => some v
      | none => d.net_profit }

/-- `update_deal` (`deals.py` lines 78-100): patch the supplied fields,
then, if `offer_price` was in the patch and the linked property's `arv`
is truthy, recompute `wholesale_fee` and `net_profit`.  The
recomputation raises `TypeError` when `purchase_price` is `None`, and
reading `db_deal.property.arv` through a dangling `property_id` also
raises; an error aborts the transaction, leaving the store unchanged. -/
def update_deal (db : DB) (deal_id : Nat) (deal_update : DealUpdate) :
    DB × Except ApiError Deal :=
  match findDeal db deal_id with
  | none => (db, Except.error (ApiError.notFound "Deal not found"))
  | some row =>
    let db_deal := applyPatch row deal_update
    if deal_update.offer_price.isSome then
      match findProperty db db_deal.property_id with
      | none => (db, Except.error ApiError.typeError)
      | some property =>
        if truthy property.arv then
          let fee := property.arv.getD 0 * (10 / 100)
          match pySub db_deal.offer_price property.purchase_price with
          | Except.error _ => (db, Except.error ApiError.typeError)
          | Except.ok spread =>
            let d2 := { db_deal with
              wholesale_fee := some fee
              net_profit := some (fee - spread) }
            (db.putDeal d2, Except.ok d2)
        else
          (db.putDeal db_deal, Except.ok db_deal)
    else
      (db.putDeal db_deal, Except.ok db_deal)

/-- `update_deal_status` (`deals.py` lines 116-136): write the new
status; when it is `closed`, also set the linked property's status to
`sold` and stamp its `sold_date` with the current time `now`. -/
def update_deal_status (db : DB) (deal_id : Nat) (status : DealStatus)
    (now : Int) : DB × Except ApiError Unit :=
  match findDeal db deal_id with
  | none => (db, Except.error (ApiError.notFound "Deal not found"))
  | some row =>
    let db_deal := { row with status := status }
    if status = DealStatus.closed then
      match findProperty db db_deal.property_id with
      | none => (db, Except.error ApiError.typeError)
      | some property =>
        let p2 := { property with
          status := PropertyStatus.sold
          sold_date := some now }
        ((db.putDeal db_deal).putProperty p2, Except.ok ())
    else
      (db.putDeal db_deal, Except.ok ())

/-- SQL `SUM` semantics: `NULL` operands are skipped, and the sum of an
empty set of non-`NULL` values is `NULL`. -/
def sqlSumNetProfit (deals : List Deal) (p : Deal → Bool) : Option ℚ :=
  let vals := (deals.filter p).filterMap Deal.net_profit
  if vals.isEmpty then none else some vals.sum

/-- `scalar() or 0`: replaces a falsy scalar (`None` or `0.0`) by `0`. -/
def orZero : Option ℚ → ℚ
  | none => 0
  | some s => if s == 0 then 0 else s

/-- One entry of the monthly revenue series. -/
structure MonthRevenue where
  month : String
  revenue : ℚ
  deriving DecidableEq, Repr

/-- Civil-calendar year and month of a day count since 1970-01-01
(the Gregorian conversion behind `strftime("%Y-%m")`). -/
def civilYearMonth (z : Int) : Int × Nat :=
  let z := z + 719468
  let era : Int := Int.fdiv z 146097
  let doe : Nat := (z - era * 146097).toNat
  let yoe : Nat := (doe - doe / 1460 + doe / 36524 - doe / 146096) / 365
  let doy : Nat := doe - (365 * yoe + yoe / 4 - yoe / 100)
  let mp : Nat := (5 * doy + 2) / 153
  let m : Nat := if mp < 10 then mp + 3 else mp - 9
  let y : Int := era * 400 + yoe
  (if m ≤ 2 then y + 1 else y, m)

/-- Zero-pad a month number to two digits. -/
def pad2 (n : Nat) : String :=
  if n < 10 then "0" ++ toString n else toString n

/-- `start_date.strftime("%Y-%m")` at day granularity. -/
def formatYM (z : Int) : String :=
  let ym := civilYearMonth z
  toString ym.1 ++ "-" ++ pad2 ym.2

/-- `get_monthly_revenue` (`dashboard.py` lines 120-143): one bucket per
`i < months`, covering the day window `[now - 30*(i+1), now - 30*i)`,
summing closed-deal `net_profit` via `scalar() or 0`, labelled by the
window start, and reversed to oldest-first.  `datetime.utcnow()` is
modelled as the single instant `now`. -/
def get_monthly_revenue (db : DB) (months : Nat) (now : Int) :
    List MonthRevenue :=
  let monthly_data := (List.range months).map fun (i : Nat) =>
    let start_date := now - 30 * ((i : Int) + 1)
    let end_date := now - 30 * (i : Int)
    let revenue := orZero (sqlSumNetProfit db.deals fun d =>
      d.status == DealStatus.closed &&
      decide (start_date ≤ d.created_at) && decide (d.created_at < end_date))
    { month := formatYM start_date, revenue := revenue }
  monthly_data.reverse

/-- The revenue aggregates of `get_deals_analytics` (`deals.py` lines
138-169); purely a read, the store is returned unchanged. -/
structure DealsAnalytics where
  total_deals : Nat
  total_revenue : ℚ
  monthly_revenue : ℚ
  deriving DecidableEq, Repr

/-- `get_deals_analytics` (`deals.py` lines 138-169): counts all deals,
sums closed-deal `net_profit` overall and over the last 30 days, each
sum guarded by `scalar() or 0`. -/
def get_deals_analytics (db : DB) (now : Int) : DB × DealsAnalytics :=
  let total_deals := db.deals.length
  let total_revenue := orZero (sqlSumNetProfit db.deals fun d =>
    d.status == DealStatus.closed)
  let thirty_days_ago := now - 30
  let monthly_revenue := orZero (sqlSumNetProfit db.deals fun d =>
    d.status == DealStatus.closed && decide (thirty_days_ago ≤ d.created_at))
  (db, { total_deals := total_deals, total_revenue := total_revenue,
         monthly_revenue := monthly_revenue })

/-! ### Fixtures: a small concrete store used by witnesses -/

/-- A property with a known non-zero ARV and purchase price. -/
def propARV : Property :=
  { id := 1, arv := some 200000, purchase_price := some 120000,
    status := PropertyStatus.available, sold_date := none }

/-- A property whose ARV is unknown (`None`). -/
def propNoArv : Property :=
  { id := 2, arv := none, purchase_price := some 100000,
    status := PropertyStatus.available, sold_date := none }

/-- A property whose ARV is present but zero. -/
def propZeroArv : Property :=
  { id := 3, arv := some 0, purchase_price := some 100000,
    status := PropertyStatus.available, sold_date := none }

/-- A lead row. -/
def leadOne : Lead := { id := 1 }

/-- A deal linked to `propARV`. -/
def dealOne : Deal :=
  { id := 1, property_id := 1, lead_id := 1, agent_id := 1,
    status := DealStatus.pending, offer_price := some 140000,
    wholesale_fee := none, net_profit := none, created_at := 19995 }

/-- A deal linked to `propNoArv`, carrying stale financial fields. -/
def dealStale : Deal :=
  { id := 2, property_id := 2, lead_id := 1, agent_id := 1,
    status := DealStatus.pending, offer_price := some 140000,
    wholesale_fee := some 5000, net_profit := some 1000, created_at := 19995 }

/-- A deal linked to `propZeroArv`, carrying stale financial fields. -/
def dealZero : Deal :=
  { id := 3, property_id := 3, lead_id := 1, agent_id := 1,
    status := DealStatus.pending, offer_price := some 140000,
    wholesale_fee := some 5000, net_profit := some 1000, created_at := 19995 }

/-- The concrete store the witnesses run against. -/
def dbEx : DB :=
  { properties := [propARV, propNoArv, propZeroArv],
    leads := [leadOne],
    deals := [dealOne, dealStale, dealZero] }

/-- An empty store. -/
def dbEmpty : DB := { properties := [], leads := [], deals := [] }

/-! ### C1 -/

/-- C1, counterexample: at `arv = 0` (present, not null) with
`purchase_price = 100` and `offer_price = 50`, the claim's "otherwise"
branch demands `wholesale_fee = 0 * 0.10` and
`net_profit = 0 * 0.10 - (50 - 100)`, but the code returns
`(None, None)` because the guard tests truthiness, not presence. -/
theorem c1_zero_arv_counterexample :
    ¬ (computeDealFinancials (some 0) (some 100) (some 50) =
        Except.ok (some (0 * (10 / 100)), some (0 * (10 / 100) - (50 - 100)))) := by
  intro h
  have h0 : computeDealFinancials (some 0) (some 100) (some 50) =
      Except.ok (none, none) := rfl
  rw [h0] at h
  simp at h

/-- C1, amended: the guard is truthiness, so a null **or zero** `arv`
or `offer_price` yields `(null, null)`; otherwise, when
`purchase_price` is present, `wholesale_fee = ARV * 0.10` and
`net_profit = wholesale_fee - (offer_price - purchase_price)` (with
`purchase_price` absent the subtraction raises instead).  The two
concrete examples of the claim hold as stated. -/
theorem c1_computeDealFinancials_amended :
    (∀ arv pp op : Option ℚ, truthy arv = false ∨ truthy op = false →
        computeDealFinancials arv pp op = Except.ok (none, none)) ∧
    (∀ a p o : ℚ, a ≠ 0 → o ≠ 0 →
        computeDealFinancials (some a) (some p) (some o) =
          Except.ok (some (a * (10 / 100)), some (a * (10 / 100) - (o - p)))) ∧
    computeDealFinancials (some 200000) (some 120000) (some 140000) =
      Except.ok (some 20000, some 0) ∧
    computeDealFinancials (some 300000) (some 150000) (some 160000) =
      Except.ok (some 30000, some 20000) := by
  refine ⟨?_, ?_, ?_, ?_⟩
  · intro arv pp op h
    rcases h with h | h <;> simp [computeDealFinancials, h]
  · intro a p o ha ho
    simp [computeDealFinancials, truthy, pySub, ha, ho]
  · norm_num [computeDealFinancials, truthy, pySub]
  · norm_num [computeDealFinancials, truthy, pySub]

/-- C1 witness: the amended theorem applied at `arv = null` and at the
concrete triple `(4, 1, 2)`. -/
theorem c1_computeDealFinancials_amended_witness :
    computeDealFinancials none (some 1) (some 1) = Except.ok (none, none) ∧
    computeDealFinancials (some 4) (some 1) (some 2) =
      Except.ok (some (4 * (10 / 100)), some (4 * (10 / 100) - (2 - 1))) :=
  ⟨c1_computeDealFinancials_amended.1 none (some 1) (some 1) (Or.inl rfl),
   c1_computeDealFinancials_amended.2.1 4 1 2 (by norm_num) (by norm_num)⟩

/-! ### C2 -/

/-- C2, counterexample: with `arv` and `offer_price` present and
non-zero but `purchase_price` null, the computation raises a
`TypeError` (`None` on the right of `-`) instead of propagating null. -/
theorem c2_null_purchase_counterexample :
    computeDealFinancials (some 100000) none (some 50000) =
      Except.error () := rfl

/-- C2, amended: the computation is total **except** in exactly one
case: it raises if and only if `arv` and `offer_price` are truthy while
`purchase_price` is null; in every other case it returns a value. -/
theorem c2_totality_amended (arv pp op : Option ℚ) :
    computeDealFinancials arv pp op = Except.error () ↔
      truthy arv = true ∧ truthy op = true ∧ pp = none := by
  unfold computeDealFinancials
  cases harv : truthy arv with
  | false => simp
  | true =>
    cases hop : truthy op with
    | false => simp
    | true =>
      cases op with
      | none => simp [truthy] at hop
      | some o =>
        cases pp with
        | none => simp [pySub]
        | some p => simp [pySub]

/-- C2 witness: the amended characterization applied at the concrete
erroneous triple and at a concrete total one. -/
theorem c2_totality_amended_witness :
    computeDealFinancials (some 5) none (some 7) = Except.error () ∧
    ¬ (computeDealFinancials (some 5) (some 3) (some 7) = Except.error ()) :=
  ⟨(c2_totality_amended (some 5) none (some 7)).mpr ⟨rfl, rfl, rfl⟩,
   fun h => by
     have := (c2_totality_amended (some 5) (some 3) (some 7)).mp h
     simp at this⟩

/-! ### C3 -/

/-- C3: `create_deal` never completes successfully.  Whenever both
referenced rows exist it reaches the constructor call, whose duplicate
keyword arguments (`agent_id`, `wholesale_fee`, `net_profit` appear in
`**deal.dict()` and again explicitly) raise `TypeError`; every run
returns an error and leaves the store unchanged. -/
theorem c3_create_deal_never_succeeds (db : DB) (dc : DealCreate) :
    (∃ e, (create_deal db dc).2 = Except.error e) ∧
    (create_deal db dc).1 = db := by
  cases hp : findProperty db dc.property_id with
  | none => simp [create_deal, hp]
  | some p =>
    cases hl : findLead db dc.lead_id with
    | none => simp [create_deal, hp, hl]
    | some l =>
      cases hf : computeDealFinancials p.arv p.purchase_price (some dc.offer_price) with
      | error e => simp [create_deal, hp, hl, hf]
      | ok v => simp [create_deal, hp, hl, hf]

/-! ### C4 -/

/-- C4, counterexample: deal 2's linked property has an unknown ARV and
the deal carries stale `wholesale_fee = 5000`, `net_profit = 1000`;
patching `offer_price` leaves both stale values in place instead of
making them null. -/
theorem c4_stale_financials_counterexample :
    (update_deal dbEx 2 { offer_price := some 130000 }).2 =
      Except.ok { dealStale with offer_price := some 130000 } ∧
    ({ dealStale with offer_price := some 130000 }).wholesale_fee = some 5000 ∧
    ({ dealStale with offer_price := some 130000 }).net_profit = some 1000 :=
  ⟨rfl, rfl, rfl⟩

/-- C4, amended: patching `offer_price` recomputes the financials only
when the linked property's ARV is truthy (non-null **and** non-zero),
and then requires a non-null `purchase_price`; when the ARV is null or
zero no recomputation happens and `wholesale_fee`/`net_profit` keep
their post-patch values (possibly stale), they are not reset to null. -/
theorem c4_recompute_amended (db : DB) (did : Nat) (u : DealUpdate)
    (row : Deal) (prop : Property)
    (hd : findDeal db did = some row)
    (ho : u.offer_price.isSome = true)
    (hp : findProperty db (applyPatch row u).property_id = some prop) :
    (∀ a pp o, prop.arv = some a → a ≠ 0 → prop.purchase_price = some pp →
        u.offer_price = some o →
        (update_deal db did u).2 = Except.ok
          { applyPatch row u with
            wholesale_fee := some (a * (10 / 100))
            net_profit := some (a * (10 / 100) - (o - pp)) }) ∧
    (truthy prop.arv = false →
        (update_deal db did u).2 = Except.ok (applyPatch row u)) := by
  constructor
  · intro a pp o ha hz hpp hoo
    have htr : truthy prop.arv = true := by simp [truthy, ha, hz]
    have hop : (applyPatch row u).offer_price = some o := by
      simp [applyPatch, hoo]
    simp [update_deal, hd, ho, hp, htr, ha, hpp, hop, pySub, truthy, hz]
  · intro hfalse
    simp [update_deal, hd, ho, hp, hfalse]

/-- C4 witness: the amended theorem applied to deal 1 (ARV 200000,
purchase price 120000) and to deal 2 (unknown ARV). -/
theorem c4_recompute_amended_witness :
    (update_deal dbEx 1 { offer_price := some 130000 }).2 = Except.ok
      { applyPatch dealOne { offer_price := some 130000 } with
        wholesale_fee := some (200000 * (10 / 100))
        net_profit := some (200000 * (10 / 100) - (130000 - 120000)) } ∧
    (update_deal dbEx 2 { offer_price := some 130000 }).2 =
      Except.ok (applyPatch dealStale { offer_price := some 130000 }) :=
  ⟨(c4_recompute_amended dbEx 1 { offer_price := some 130000 } dealOne propARV
      rfl rfl rfl).1 200000 120000 130000 rfl (by norm_num) rfl rfl,
   (c4_recompute_amended dbEx 2 { offer_price := some 130000 } dealStale propNoArv
      rfl rfl rfl).2 rfl⟩

/-! ### C5 -/

/-- Replacing, in a property table, every row sharing `p2.id` by `p2`
makes the lookup that previously found `prop` return `p2`, whenever
`p2` keeps the id of `prop`. -/
lemma find?_replace_by_id (l : List Property) (pid : Nat) (prop p2 : Property)
    (h : l.find? (fun p => p.id == pid) = some prop) (hid : p2.id = prop.id) :
    (l.map fun x => if x.id == p2.id then p2 else x).find?
      (fun p => p.id == pid) = some p2 := by
  induction l with
  | nil => simp at h
  | cons a t ih =>
    rw [List.find?_cons] at h
    rw [List.map_cons, List.find?_cons]
    cases hab : (a.id == pid) with
    | true =>
      simp only [hab] at h
      injection h with h
      subst h
      have hb : (a.id == p2.id) = true := by simp [hid]
      have hapid : a.id = pid := by simpa using hab
      have hp2 : (p2.id == pid) = true := by simp [hid, hapid]
      simp [hb, hp2]
    | false =>
      simp only [hab] at h
      have hprop : prop.id = pid := by
        simpa using List.find?_some h
      have hane : a.id ≠ pid := by simpa using hab
      have hbf : (a.id == p2.id) = false := by
        simp [hid, hprop, hane]
      rw [hbf, if_neg Bool.false_ne_true, hab]
      exact ih h

/-- C5: closing a deal sets the linked property to `sold` and stamps
`sold_date := now` (also when re-closing: no hypothesis on the
property's previous status, and `sold_date` is re-stamped); any other
status write leaves the property table untouched; and no status write
ever moves a property away from `sold`: every property row after the
call is either unchanged or newly stamped `sold`. -/
theorem c5_close_sets_property_sold (db : DB) (did : Nat)
    (st : DealStatus) (now : Int) :
    (∀ row prop, findDeal db did = some row →
        findProperty db row.property_id = some prop →
        st = DealStatus.closed →
        findProperty (update_deal_status db did st now).1 row.property_id =
          some { prop with status := PropertyStatus.sold,
                           sold_date := some now }) ∧
    (st ≠ DealStatus.closed →
        (update_deal_status db did st now).1.properties = db.properties) ∧
    (∀ q, q ∈ (update_deal_status db did st now).1.properties →
        q ∈ db.properties ∨
          (q.status = PropertyStatus.sold ∧ q.sold_date = some now)) := by
  refine ⟨?_, ?_, ?_⟩
  · intro row prop hd hp hst
    subst hst
    simp only [update_deal_status, hd, if_pos, DB.putDeal, DB.putProperty,
      findProperty] at hp ⊢
    rw [hp]
    exact find?_replace_by_id db.properties row.property_id prop
      { prop with status := PropertyStatus.sold, sold_date := some now } hp rfl
  · intro hne
    cases hd : findDeal db did with
    | none => simp [update_deal_status, hd]
    | some row => simp [update_deal_status, hd, hne, DB.putDeal]
  · intro q hq
    cases hd : findDeal db did with
    | none =>
      simp only [update_deal_status, hd] at hq
      exact Or.inl hq
    | some row =>
      by_cases hst : st = DealStatus.closed
      · subst hst
        cases hp : findProperty db row.property_id with
        | none =>
          simp only [update_deal_status, hd, hp, if_pos] at hq
          exact Or.inl hq
        | some prop =>
          simp only [update_deal_status, hd, hp, if_pos, DB.putDeal,
            DB.putProperty, List.mem_map] at hq
          obtain ⟨x, hx, hfx⟩ := hq
          by_cases hb : (x.id == prop.id) = true
          · rw [if_pos hb] at hfx
            right
            rw [← hfx]
            exact ⟨rfl, rfl⟩
          · rw [if_neg hb] at hfx
            left
            rw [← hfx]
            exact hx
      · simp only [update_deal_status, hd, if_neg hst, DB.putDeal] at hq
        exact Or.inl hq

/-- C5 witness: closing deal 1 marks property 1 sold with the close
time; setting deal 1 to `approved` leaves the property table as it
was. -/
theorem c5_close_sets_property_sold_witness :
    findProperty (update_deal_status dbEx 1 DealStatus.closed 20000).1
        dealOne.property_id =
      some { propARV with status := PropertyStatus.sold,
                          sold_date := some 20000 } ∧
    (update_deal_status dbEx 1 DealStatus.approved 20000).1.properties =
      dbEx.properties :=
  ⟨(c5_close_sets_property_sold dbEx 1 DealStatus.closed 20000).1
      dealOne propARV rfl rfl rfl,
   (c5_close_sets_property_sold dbEx 1 DealStatus.approved 20000).2.1
      (by decide)⟩

/-! ### C9 -/

/-- C9: the financial guard tests truthiness, not presence: a
present-but-zero `arv` or `offer_price` yields `(null, null)` exactly
as if unknown, and a patch containing `offer_price` skips the
recomputation when the linked property's ARV is zero. -/
theorem c9_truthiness_guard :
    (∀ pp op : Option ℚ,
        computeDealFinancials (some 0) pp op = Except.ok (none, none)) ∧
    (∀ arv pp : Option ℚ,
        computeDealFinancials arv pp (some 0) = Except.ok (none, none)) ∧
    (∀ db did u row prop, findDeal db did = some row →
        u.offer_price.isSome = true →
        findProperty db (applyPatch row u).property_id = some prop →
        prop.arv = some 0 →
        (update_deal db did u).2 = Except.ok (applyPatch row u)) := by
  refine ⟨?_, ?_, ?_⟩
  · intro pp op
    simp [computeDealFinancials, truthy]
  · intro arv pp
    simp [computeDealFinancials, truthy]
  · intro db did u row prop hd ho hp ha
    have hfalse : truthy prop.arv = false := by simp [truthy, ha]
    simp [update_deal, hd, ho, hp, hfalse]

/-- C9 witness: the guard applied at zero ARV / zero offer, and the
patch path applied to deal 3 whose property has `arv = 0`. -/
theorem c9_truthiness_guard_witness :
    computeDealFinancials (some 0) (some 7) (some 9) = Except.ok (none, none) ∧
    computeDealFinancials (some 7) (some 7) (some 0) = Except.ok (none, none) ∧
    (update_deal dbEx 3 { offer_price := some 130000 }).2 =
      Except.ok (applyPatch dealZero { offer_price := some 130000 }) :=
  ⟨c9_truthiness_guard.1 (some 7) (some 9),
   c9_truthiness_guard.2.1 (some 7) (some 7),
   c9_truthiness_guard.2.2 dbEx 3 { offer_price := some 130000 }
     dealZero propZeroArv rfl rfl rfl rfl⟩

/-! ### C10 -/

/-- C10: the generic field-patch endpoint never writes the property
table — also when the patch sets `status := closed`; the cross-entity
side effect exists only in the dedicated status endpoint. -/
theorem c10_generic_patch_frame (db : DB) (did : Nat) (u : DealUpdate) :
    ((update_deal db did u).1).properties = db.properties := by
  cases hd : findDeal db did with
  | none => simp [update_deal, hd]
  | some row =>
    cases ho : u.offer_price with
    | none => simp [update_deal, hd, ho, DB.putDeal]
    | some o =>
      cases hp : findProperty db (applyPatch row u).property_id with
      | none => simp [update_deal, hd, ho, hp]
      | some prop =>
        cases ht : truthy prop.arv with
        | false => simp [update_deal, hd, ho, hp, ht, DB.putDeal]
        | true =>
          cases hs : pySub (applyPatch row u).offer_price prop.purchase_price with
          | error e => simp [update_deal, hd, ho, hp, ht, hs]
          | ok spread => simp [update_deal, hd, ho, hp, ht, hs, DB.putDeal]

/-! ### C6 and C7 -/

/-- `orZero (some s) = s`: the `or 0` guard is the identity on a
present sum (a zero sum is replaced by the equal literal `0`). -/
lemma orZero_some (s : ℚ) : orZero (some s) = s := by
  unfold orZero
  by_cases hz : s = 0
  · simp [hz]
  · simp [hz]

/-- The `scalar() or 0` wrapper around the SQL sum equals the plain
list sum of the present `net_profit` values of the matching deals. -/
lemma orZero_sqlSum (deals : List Deal) (p : Deal → Bool) :
    orZero (sqlSumNetProfit deals p) =
      ((deals.filter p).filterMap Deal.net_profit).sum := by
  simp only [sqlSumNetProfit]
  by_cases h : ((deals.filter p).filterMap Deal.net_profit).isEmpty = true
  · rw [if_pos h, List.isEmpty_iff.mp h]
    rfl
  · rw [if_neg h, orZero_some]

/-- Entry `j` of the oldest-first monthly revenue series is the bucket
for `i = months - 1 - j`: the 30-day window ending `30 * i` days before
`now`, labelled by the window start, summing the present `net_profit`
of the closed deals created inside the window. -/
lemma monthly_entry (db : DB) (months : Nat) (now : Int) (j : Nat)
    (hj : j < months) :
    (get_monthly_revenue db months now)[j]? =
      some { month := formatYM (now - 30 * (((months - 1 - j : Nat) : Int) + 1)),
             revenue := ((db.deals.filter fun d =>
                 d.status == DealStatus.closed &&
                 decide (now - 30 * (((months - 1 - j : Nat) : Int) + 1) ≤
                   d.created_at) &&
                 decide (d.created_at <
                   now - 30 * ((months - 1 - j : Nat) : Int))).filterMap
               Deal.net_profit).sum } := by
  simp only [get_monthly_revenue]
  rw [List.getElem?_reverse (by simpa using hj)]
  simp only [List.length_map, List.length_range]
  rw [List.getElem?_map, List.getElem?_range (show months - 1 - j < months by omega)]
  simp only [Option.map_some', orZero_sqlSum]

/-- C6: for every `months`, the series has exactly `months` entries,
oldest first; entry `j` (so `i = months - 1 - j` windows back from
`now`) covers the fixed 30-day window `[now - 30*(i+1), now - 30*i)`,
its label is the year-month of the window start, and its revenue is
the sum of the present `net_profit` values of the closed deals whose
`created_at` lies in the window. -/
theorem c6_monthly_revenue_series (db : DB) (months : Nat) (now : Int) :
    (get_monthly_revenue db months now).length = months ∧
    ∀ j, j < months →
      (get_monthly_revenue db months now)[j]? =
        some { month := formatYM (now - 30 * (((months - 1 - j : Nat) : Int) + 1)),
               revenue := ((db.deals.filter fun d =>
                   d.status == DealStatus.closed &&
                   decide (now - 30 * (((months - 1 - j : Nat) : Int) + 1) ≤
                     d.created_at) &&
                   decide (d.created_at <
                     now - 30 * ((months - 1 - j : Nat) : Int))).filterMap
                 Deal.net_profit).sum } := by
  refine ⟨by simp [get_monthly_revenue], ?_⟩
  intro j hj
  exact monthly_entry db months now j hj

/-- C6 witness: the series for 3 months at `now = 20000` has length 3
and its oldest entry is the bucket two windows back. -/
theorem c6_monthly_revenue_series_witness :
    (get_monthly_revenue dbEx 3 20000).length = 3 ∧
    (get_monthly_revenue dbEx 3 20000)[0]? =
      some { month := formatYM (20000 - 30 * (((3 - 1 - 0 : Nat) : Int) + 1)),
             revenue := ((dbEx.deals.filter fun d =>
                 d.status == DealStatus.closed &&
                 decide (20000 - 30 * (((3 - 1 - 0 : Nat) : Int) + 1) ≤
                   d.created_at) &&
                 decide (d.created_at <
                   20000 - 30 * ((3 - 1 - 0 : Nat) : Int))).filterMap
               Deal.net_profit).sum } :=
  ⟨(c6_monthly_revenue_series dbEx 3 20000).1,
   (c6_monthly_revenue_series dbEx 3 20000).2 0 (by norm_num)⟩

/-- C7: the revenue aggregates are read-only (the store comes back
unchanged) and every one of them — total revenue, last-30-days
revenue, and each monthly bucket — is `0`, not null or absent, when no
deal matches its filter. -/
theorem c7_aggregates_zero_on_empty (db : DB) (now : Int) (months : Nat) :
    (get_deals_analytics db now).1 = db ∧
    ((db.deals.filter fun d => d.status == DealStatus.closed) = [] →
      (get_deals_analytics db now).2.total_revenue = 0) ∧
    ((db.deals.filter fun d => d.status == DealStatus.closed &&
        decide (now - 30 ≤ d.created_at)) = [] →
      (get_deals_analytics db now).2.monthly_revenue = 0) ∧
    (∀ j, j < months →
      (db.deals.filter fun d =>
          d.status == DealStatus.closed &&
          decide (now - 30 * (((months - 1 - j : Nat) : Int) + 1) ≤
            d.created_at) &&
          decide (d.created_at <
            now - 30 * ((months - 1 - j : Nat) : Int))) = [] →
      ∃ m, (get_monthly_revenue db months now)[j]? = some m ∧
        m.revenue = 0) := by
  refine ⟨rfl, ?_, ?_, ?_⟩
  · intro h
    simp only [get_deals_analytics]
    rw [orZero_sqlSum, h]
    rfl
  · intro h
    simp only [get_deals_analytics]
    rw [orZero_sqlSum, h]
    rfl
  · intro j hj hempty
    exact ⟨_, monthly_entry db months now j hj,
      by simp only [hempty, List.filterMap_nil, List.sum_nil]⟩

/-- C7 witness: on the empty store every aggregate evaluates to `0`. -/
theorem c7_aggregates_zero_on_empty_witness :
    (get_deals_analytics dbEmpty 20000).2.total_revenue = 0 ∧
    (get_deals_analytics dbEmpty 20000).2.monthly_revenue = 0 ∧
    (∃ m, (get_monthly_revenue dbEmpty 2 20000)[0]? = some m ∧
      m.revenue = 0) :=
  ⟨(c7_aggregates_zero_on_empty dbEmpty 20000 2).2.1 rfl,
   (c7_aggregates_zero_on_empty dbEmpty 20000 2).2.2.1 rfl,
   (c7_aggregates_zero_on_empty dbEmpty 20000 2).2.2.2 0 (by norm_num) rfl⟩

/-! ### C8 -/

/-- Helper: recognize a NotFound result. -/
def isNotFound : Except ApiError Deal → Bool
  | Except.error (ApiError.notFound _) => true
  | _ => false

/-- C8: `create_deal` fails with NotFound exactly when the referenced
property or lead id is absent (property checked first); it never
mutates the store, so in particular no deal is inserted on NotFound;
and when both references exist the run gets past the referential check
(its failure, if any, is not a NotFound). -/
theorem c8_referential_integrity (db : DB) (dc : DealCreate) :
    (isNotFound (create_deal db dc).2 = true ↔
      findProperty db dc.property_id = none ∨ findLead db dc.lead_id = none) ∧
    (create_deal db dc).1 = db := by
  constructor
  · cases hp : findProperty db dc.property_id with
    | none => simp [create_deal, hp, isNotFound]
    | some p =>
      cases hl : findLead db dc.lead_id with
      | none => simp [create_deal, hp, hl, isNotFound]
      | some l =>
        cases hf : computeDealFinancials p.arv p.purchase_price
            (some dc.offer_price) with
        | error e => simp [create_deal, hp, hl, hf, isNotFound]
        | ok v => simp [create_deal, hp, hl, hf, isNotFound]
  · cases hp : findProperty db dc.property_id with
    | none => simp [create_deal, hp]
    | some p =>
      cases hl : findLead db dc.lead_id with
      | none => simp [create_deal, hp, hl]
      | some l =>
        cases hf : computeDealFinancials p.arv p.purchase_price
            (some dc.offer_price) with
        | error e => simp [create_deal, hp, hl, hf]
        | ok v => simp [create_deal, hp, hl, hf]

/-- C8 witness: a dangling property reference yields NotFound and a
fully valid reference pair does not. -/
theorem c8_referential_integrity_witness :
    isNotFound (create_deal dbEx
      { property_id := 9, lead_id := 1, agent_id := 1,
        offer_price := 100 }).2 = true ∧
    isNotFound (create_deal dbEx
      { property_id := 1, lead_id := 1, agent_id := 1,
        offer_price := 100 }).2 = false :=
  ⟨(c8_referential_integrity dbEx
      { property_id := 9, lead_id := 1, agent_id := 1,
        offer_price := 100 }).1.mpr (Or.inl rfl),
   by
    have h := (c8_referential_integrity dbEx
      { property_id := 1, lead_id := 1, agent_id := 1,
        offer_price := 100 }).1
    cases hb : isNotFound (create_deal dbEx
      { property_id := 1, lead_id := 1, agent_id := 1,
        offer_price := 100 }).2 with
    | false => rfl
    | true =>
      rcases h.mp hb with hc | hc
      · exact absurd hc (by decide)
      · exact absurd hc (by decide)⟩

end RealEstate
